import Mathlib

/-!
Shallow embedding of the cache-aside server in `src/server.js`.

The server keeps a relational store with one `locations` table and one table
per resource kind (`weathers`, `events`, `movies`, `yelps`).  Each route
handler looks the kind's rows up by `location_id`, checks their age against a
per-kind timeout, deletes them when stale, and otherwise either returns the
persisted rows or fetches fresh records from an external provider.

Modelling conventions:
* JavaScript millisecond timestamps (`Date.now()`, `created_at`) are `Nat`.
  `Date.now() - created_at` is modelled with `Nat` subtraction; for the
  `age > timeout` comparison this agrees with JS number subtraction, since a
  negative JS age and a truncated-to-zero age both fail `age > T` for `T ≥ 0`.
* `new Date(ms).toDateString()` and `Date.parse` are modelled abstractly:
  `toDateString` is an injective rendering of the millisecond value, and raw
  event payloads carry the already-parsed millisecond value.
* Fractional JSON numbers (latitude, ratings, popularity) are modelled as
  `Int`; no claim depends on fractional values.
* An HTTP gateway is a function `String → Except Unit payload` from the URL
  the code builds to either the parsed response body or a rejection.
* A promise chain ending in `.catch(...)` that merely logs resolves normally;
  this is modelled by the chain producing a value rather than an error.  The
  `surfaced` field of an `Outcome` records the rejection, if any, that
  escapes the handler's promise chain to its caller.
-/

/-- The four resource kinds served by the four cached routes. -/
inductive Kind
  | weather
  | events
  | movies
  | yelp
deriving DecidableEq, Repr, Fintype

/-- Per-kind freshness timeouts in milliseconds, from the `timeouts` object. -/
def timeouts : Kind → Nat
  | .weather => 15 * 1000
  | .events => 60 * 60 * 1000
  | .movies => 60 * 60 * 24 * 1000
  | .yelp => 60 * 60 * 4 * 1000

/-- Per-kind table names (`Weather.tableName` etc.). -/
def tableName : Kind → String
  | .weather => "weathers"
  | .events => "events"
  | .movies => "movies"
  | .yelp => "yelps"

/-- Models `new Date(ms).toDateString()` as an abstract injective rendering of
the millisecond value. -/
def toDateString (ms : Nat) : String := "Date(" ++ toString ms ++ ")"

/-- The `Location` object: built by the `Location` constructor from a geocode
result, its `id` populated from the insert's `RETURNING id`.  The same shape
serves as a row of the `locations` table. -/
structure Location where
  id : Nat
  search_query : String
  formatted_query : String
  latitude : Int
  longitude : Int
deriving DecidableEq, Repr

/-- A canonical resource record, one variant per kind, with exactly the fields
the corresponding constructor function assigns. -/
inductive Rec
  | weather (forecast : String) (time : String) (created_at : Nat)
  | event (link : String) (name : String) (event_date : String) (summary : String)
      (created_at : Nat)
  | movie (title : String) (released_on : String) (total_votes : Nat)
      (average_votes : Int) (popularity : Int) (overview : String)
      (image_url : String) (created_at : Nat)
  | yelp (name : String) (rating : Int) (price : String) (url : String)
      (image_url : String) (created_at : Nat)
deriving DecidableEq, Repr

/-- The kind a record's constructor belongs to. -/
def kindOf : Rec → Kind
  | .weather .. => .weather
  | .event .. => .events
  | .movie .. => .movies
  | .yelp .. => .yelp

/-- The record's `created_at` timestamp, used by the freshness check. -/
def Rec.created_at : Rec → Nat
  | .weather _ _ c => c
  | .event _ _ _ _ c => c
  | .movie _ _ _ _ _ _ _ c => c
  | .yelp _ _ _ _ _ c => c

/-- The field names the kind's constructor assigns, which are also the data
columns its `save` inserts. -/
def Rec.fieldNames : Rec → List String
  | .weather .. => ["forecast", "time", "created_at"]
  | .event .. => ["link", "name", "event_date", "summary", "created_at"]
  | .movie .. => ["title", "released_on", "total_votes", "average_votes",
      "popularity", "overview", "image_url", "created_at"]
  | .yelp .. => ["name", "rating", "price", "url", "image_url", "created_at"]

/-- The canonical data fields of a kind. -/
def canonicalFields : Kind → List String
  | .weather => ["forecast", "time", "created_at"]
  | .events => ["link", "name", "event_date", "summary", "created_at"]
  | .movies => ["title", "released_on", "total_votes", "average_votes",
      "popularity", "overview", "image_url", "created_at"]
  | .yelp => ["name", "rating", "price", "url", "image_url", "created_at"]

/-- A persisted row of a resource table: the record's data columns together
with the store-assigned `id` (from `RETURNING id`) and the `location_id`
foreign key that `save(id)` appends. -/
structure Row where
  id : Nat
  location_id : Nat
  record : Rec
deriving DecidableEq, Repr

/-- The column names a `SELECT *` on a resource table returns for a row:
the serial `id`, the kind's data columns, and the `location_id` key. -/
def Row.fieldNames (r : Row) : List String :=
  "id" :: r.record.fieldNames ++ ["location_id"]

/-- The relational store: the `locations` table, one table per resource kind,
and the next id the serial sequence will assign. -/
structure Store where
  locations : List Location
  weathers : List Row
  events : List Row
  movies : List Row
  yelps : List Row
  nextId : Nat
deriving DecidableEq, Repr

/-- The rows of the given kind's table. -/
def tableOfStore : Kind → Store → List Row
  | .weather, s => s.weathers
  | .events, s => s.events
  | .movies, s => s.movies
  | .yelp, s => s.yelps

/-- `SELECT * FROM <kind table> WHERE location_id=$1`, as issued by the
`lookup` helper. -/
def findByLocation (k : Kind) (locId : Nat) (s : Store) : List Row :=
  (tableOfStore k s).filter (fun r => r.location_id == locId)

/-- The `deleteByLocationId` helper:
`DELETE FROM ${table} WHERE location_id=${location_id}`.  It dispatches on
the table name it is handed, exactly as the SQL does. -/
def deleteByLocationId (table : String) (location_id : Nat) (s : Store) : Store :=
  if table = "weathers" then
    { s with weathers := s.weathers.filter (fun r => r.location_id != location_id) }
  else if table = "events" then
    { s with events := s.events.filter (fun r => r.location_id != location_id) }
  else if table = "movies" then
    { s with movies := s.movies.filter (fun r => r.location_id != location_id) }
  else if table = "yelps" then
    { s with yelps := s.yelps.filter (fun r => r.location_id != location_id) }
  else s

/-- The per-kind `save(id)` insert: append the record to the kind's table with
the given `location_id` and the next serial id. -/
def insertRowK (k : Kind) (rcd : Rec) (locId : Nat) (s : Store) : Store :=
  match k with
  | .weather => { s with weathers := s.weathers ++ [⟨s.nextId, locId, rcd⟩], nextId := s.nextId + 1 }
  | .events => { s with events := s.events ++ [⟨s.nextId, locId, rcd⟩], nextId := s.nextId + 1 }
  | .movies => { s with movies := s.movies ++ [⟨s.nextId, locId, rcd⟩], nextId := s.nextId + 1 }
  | .yelp => { s with yelps := s.yelps ++ [⟨s.nextId, locId, rcd⟩], nextId := s.nextId + 1 }

/-- Raw provider payload item for weather: one entry of `body.daily.data`. -/
structure Day where
  summary : String
  time : Nat
deriving DecidableEq, Repr

/-- Raw provider payload item for events: one entry of `body.events`, with
`start_local` the millisecond value `Date.parse(data.start.local)` yields. -/
structure RawEvent where
  url : String
  name_text : String
  start_local : Nat
  summary : String
deriving DecidableEq, Repr

/-- Raw provider payload item for movies: one entry of `body.results`. -/
structure RawMovie where
  title : String
  release_date : String
  vote_count : Nat
  vote_average : Int
  popularity : Int
  overview : String
  poster_path : String
deriving DecidableEq, Repr

/-- Raw provider payload item for yelp: one entry of `body.businesses`. -/
structure RawYelp where
  name : String
  rating : Int
  price : String
  url : String
  image_url : String
deriving DecidableEq, Repr

/-- The `Weather` constructor: forecast from `day.summary`, rendered date from
`day.time * 1000`, `created_at = Date.now()`. -/
def mkWeather (now : Nat) (day : Day) : Rec :=
  .weather day.summary (toDateString (day.time * 1000)) now

/-- The `Events` constructor. -/
def mkEvent (now : Nat) (e : RawEvent) : Rec :=
  .event e.url e.name_text (toDateString e.start_local) e.summary now

/-- The `Movies` constructor, including the image-url prefixing. -/
def mkMovie (now : Nat) (m : RawMovie) : Rec :=
  .movie m.title m.release_date m.vote_count m.vote_average m.popularity
    m.overview ("https://image.tmdb.org/t/p/original" ++ m.poster_path) now

/-- The `Yelp` constructor. -/
def mkYelp (now : Nat) (y : RawYelp) : Rec :=
  .yelp y.name y.rating y.price y.url y.image_url now

/-- The parsed response body type each kind's gateway yields. -/
def PayloadType : Kind → Type
  | .weather => List Day
  | .events => List RawEvent
  | .movies => List RawMovie
  | .yelp => List RawYelp

/-- The URL `Weather.fetch` builds: Dark Sky keyed by the location's
coordinates. -/
def weatherUrl (apiKey : String) (l : Location) : String :=
  "https://api.darksky.net/forecast/" ++ apiKey ++ "/" ++ toString l.latitude
    ++ "," ++ toString l.longitude

/-- The URL `Events.fetch` builds: Eventbrite keyed by the location's
formatted address. -/
def eventsUrl (apiKey : String) (l : Location) : String :=
  "https://www.eventbriteapi.com/v3/events/search?token=" ++ apiKey
    ++ "&location.address=" ++ l.formatted_query

/-- The URL `Movies.fetch` builds: the TMDB now-playing list.  The location
argument is received, as in the source, but no part of it reaches the URL. -/
def moviesUrl (apiKey : String) (_l : Location) : String :=
  "https://api.themoviedb.org/3/movie/now_playing?api_key=" ++ apiKey
    ++ "&language=en-US&page=1"

/-- The URL `Yelp.fetch` builds: Yelp search keyed by the location's original
search text (the API key travels in a header, not the URL). -/
def yelpUrl (l : Location) : String :=
  "https://api.yelp.com/v3/businesses/search?location=" ++ l.search_query

/-- `Weather.fetch`: issue the coordinate-keyed request; on success construct
a `Weather` per day, `save` each against `location.id`, and resolve with the
summaries; a rejection propagates (no catch in this fetch). -/
def Weather.fetch (now : Nat) (location : Location) (apiKey : String)
    (http : String → Except Unit (List Day)) (s : Store) :
    Store × Except Unit (Option (List Rec)) :=
  match http (weatherUrl apiKey location) with
  | .error e => (s, .error e)
  | .ok days =>
      let summaries := days.map (mkWeather now)
      (summaries.foldl (fun st r => insertRowK .weather r location.id st) s,
        .ok (some summaries))

/-- `Events.fetch`: like `Weather.fetch`, keyed by formatted address; a
rejection propagates (no catch in this fetch). -/
def Events.fetch (now : Nat) (location : Location) (apiKey : String)
    (http : String → Except Unit (List RawEvent)) (s : Store) :
    Store × Except Unit (Option (List Rec)) :=
  match http (eventsUrl apiKey location) with
  | .error e => (s, .error e)
  | .ok evs =>
      let summaries := evs.map (mkEvent now)
      (summaries.foldl (fun st r => insertRowK .events r location.id st) s,
        .ok (some summaries))

/-- `Movies.fetch`: the now-playing request; on success construct and `save`
each movie; its trailing `.catch` logs a rejection and resolves with
`undefined` (modelled `.ok none`). -/
def Movies.fetch (now : Nat) (location : Location) (apiKey : String)
    (http : String → Except Unit (List RawMovie)) (s : Store) :
    Store × Except Unit (Option (List Rec)) :=
  match http (moviesUrl apiKey location) with
  | .error _ => (s, .ok none)
  | .ok ms =>
      let summaries := ms.map (mkMovie now)
      (summaries.foldl (fun st r => insertRowK .movies r location.id st) s,
        .ok (some summaries))

/-- `Yelp.fetch`: the search-text-keyed request; like `Movies.fetch` its
trailing `.catch` logs a rejection and resolves with `undefined`. -/
def Yelp.fetch (now : Nat) (location : Location) (_apiKey : String)
    (http : String → Except Unit (List RawYelp)) (s : Store) :
    Store × Except Unit (Option (List Rec)) :=
  match http (yelpUrl location) with
  | .error _ => (s, .ok none)
  | .ok ys =>
      let summaries := ys.map (mkYelp now)
      (summaries.foldl (fun st r => insertRowK .yelp r location.id st) s,
        .ok (some summaries))

/-- Kind-indexed dispatch to the four fetch functions. -/
def fetchK : (k : Kind) → Nat → Location → String →
    (String → Except Unit (PayloadType k)) → Store →
    Store × Except Unit (Option (List Rec))
  | .weather => Weather.fetch
  | .events => Events.fetch
  | .movies => Movies.fetch
  | .yelp => Yelp.fetch

/-- What a route handler sends, when it sends anything: the persisted rows on
a cache hit, the freshly fetched records on a miss, or the `undefined` a
swallowing fetch resolved with. -/
inductive Response
  | rows (rs : List Row)
  | recs (rs : List Rec)
  | jsUndefined
deriving DecidableEq, Repr

/-- The kinds of error the design names. -/
inductive ErrKind
  | storeErr
  | gatewayErr
  | notFound
deriving DecidableEq, Repr

/-- The observable outcome of one route invocation: the store afterwards, the
response sent (if any), how many gateway requests were issued, and the
rejection (if any) that escaped the handler's promise chain to its caller. -/
structure Outcome where
  store : Store
  response : Option Response
  gatewayCalls : Nat
  surfaced : Option ErrKind
deriving DecidableEq, Repr

/-- The `getWeather` route handler.  `dbOk = false` models the lookup query
rejecting; `lookup`'s `.catch(errorMessage)` then logs a 500 object and
resolves, invoking neither path.  On a non-empty lookup the inline `cacheHit`
compares `Date.now() - rows[0].created_at` with the weather timeout: stale
rows are deleted and the handler then evaluates `this.cacheMiss` without
calling it, so nothing further happens; fresh rows are sent verbatim.  On an
empty lookup `cacheMiss` runs `Weather.fetch` and sends its records, its own
`.catch(console.error)` swallowing a rejection. -/
def getWeather (now : Nat) (loc : Location) (apiKey : String)
    (http : String → Except Unit (List Day)) (dbOk : Bool) (s : Store) : Outcome :=
  if dbOk then
    match findByLocation .weather loc.id s with
    | row :: rest =>
        if now - row.record.created_at > timeouts .weather then
          { store := deleteByLocationId "weathers" loc.id s, response := none,
            gatewayCalls := 0, surfaced := none }
        else
          { store := s, response := some (.rows (row :: rest)),
            gatewayCalls := 0, surfaced := none }
    | [] =>
        match Weather.fetch now loc apiKey http s with
        | (s2, .ok (some recs)) =>
            { store := s2, response := some (.recs recs), gatewayCalls := 1,
              surfaced := none }
        | (s2, .ok none) =>
            { store := s2, response := some .jsUndefined, gatewayCalls := 1,
              surfaced := none }
        | (s2, .error _) =>
            { store := s2, response := none, gatewayCalls := 1, surfaced := none }
  else
    { store := s, response := none, gatewayCalls := 0, surfaced := none }

/-- The `getEvents` route handler; same shape as `getWeather` with the events
table, timeout, and fetch. -/
def getEvents (now : Nat) (loc : Location) (apiKey : String)
    (http : String → Except Unit (List RawEvent)) (dbOk : Bool) (s : Store) : Outcome :=
  if dbOk then
    match findByLocation .events loc.id s with
    | row :: rest =>
        if now - row.record.created_at > timeouts .events then
          { store := deleteByLocationId "events" loc.id s, response := none,
            gatewayCalls := 0, surfaced := none }
        else
          { store := s, response := some (.rows (row :: rest)),
            gatewayCalls := 0, surfaced := none }
    | [] =>
        match Events.fetch now loc apiKey http s with
        | (s2, .ok (some recs)) =>
            { store := s2, response := some (.recs recs), gatewayCalls := 1,
              surfaced := none }
        | (s2, .ok none) =>
            { store := s2, response := some .jsUndefined, gatewayCalls := 1,
              surfaced := none }
        | (s2, .error _) =>
            { store := s2, response := none, gatewayCalls := 1, surfaced := none }
  else
    { store := s, response := none, gatewayCalls := 0, surfaced := none }

/-- The `getMovies` route handler; same shape with the movies table, timeout,
and fetch (whose internal catch makes the error arm unreachable). -/
def getMovies (now : Nat) (loc : Location) (apiKey : String)
    (http : String → Except Unit (List RawMovie)) (dbOk : Bool) (s : Store) : Outcome :=
  if dbOk then
    match findByLocation .movies loc.id s with
    | row :: rest =>
        if now - row.record.created_at > timeouts .movies then
          { store := deleteByLocationId "movies" loc.id s, response := none,
            gatewayCalls := 0, surfaced := none }
        else
          { store := s, response := some (.rows (row :: rest)),
            gatewayCalls := 0, surfaced := none }
    | [] =>
        match Movies.fetch now loc apiKey http s with
        | (s2, .ok (some recs)) =>
            { store := s2, response := some (.recs recs), gatewayCalls := 1,
              surfaced := none }
        | (s2, .ok none) =>
            { store := s2, response := some .jsUndefined, gatewayCalls := 1,
              surfaced := none }
        | (s2, .error _) =>
            { store := s2, response := none, gatewayCalls := 1, surfaced := none }
  else
    { store := s, response := none, gatewayCalls := 0, surfaced := none }

/-- The `getYelp` route handler; same shape with the yelps table, timeout, and
fetch (whose internal catch makes the error arm unreachable). -/
def getYelp (now : Nat) (loc : Location) (apiKey : String)
    (http : String → Except Unit (List RawYelp)) (dbOk : Bool) (s : Store) : Outcome :=
  if dbOk then
    match findByLocation .yelp loc.id s with
    | row :: rest =>
        if now - row.record.created_at > timeouts .yelp then
          { store := deleteByLocationId "yelps" loc.id s, response := none,
            gatewayCalls := 0, surfaced := none }
        else
          { store := s, response := some (.rows (row :: rest)),
            gatewayCalls := 0, surfaced := none }
    | [] =>
        match Yelp.fetch now loc apiKey http s with
        | (s2, .ok (some recs)) =>
            { store := s2, response := some (.recs recs), gatewayCalls := 1,
              surfaced := none }
        | (s2, .ok none) =>
            { store := s2, response := some .jsUndefined, gatewayCalls := 1,
              surfaced := none }
        | (s2, .error _) =>
            { store := s2, response := none, gatewayCalls := 1, surfaced := none }
  else
    { store := s, response := none, gatewayCalls := 0, surfaced := none }

/-- Kind-indexed dispatch to the four route handlers: the engine's
`fetchCached(kind, location)` entry. -/
def getResource : (k : Kind) → Nat → Location → String →
    (String → Except Unit (PayloadType k)) → Bool → Store → Outcome
  | .weather => getWeather
  | .events => getEvents
  | .movies => getMovies
  | .yelp => getYelp

/-- A geocoding result: one entry of `body.results`. -/
structure GeoResult where
  formatted_address : String
  lat : Int
  lng : Int
deriving DecidableEq, Repr

/-- `Location.fetchLocation`: issue the geocode request; throw `No data` when
it returns zero results; otherwise build a `Location` from the first result,
insert it, populate its id from `RETURNING id`, and resolve with it. -/
def Location.fetchLocation (query : String)
    (net : Except Unit (List GeoResult)) (s : Store) :
    Store × Except ErrKind Location :=
  match net with
  | .error _ => (s, .error .gatewayErr)
  | .ok [] => (s, .error .notFound)
  | .ok (g :: _) =>
      let loc : Location := ⟨s.nextId, query, g.formatted_address, g.lat, g.lng⟩
      ({ s with locations := s.locations ++ [loc], nextId := s.nextId + 1 },
        .ok loc)

/-- The observable outcome of one location-route invocation: the store
afterwards, the Location sent (if any), the geocode requests issued, and the
rejection (if any) that escaped the handler's promise chain to its caller. -/
structure LocOutcome where
  store : Store
  response : Option Location
  gatewayCalls : Nat
  surfaced : Option ErrKind
deriving DecidableEq, Repr

/-- `SELECT * FROM locations WHERE search_query=$1`, as issued by
`Location.lookup`. -/
def findLocationBySearchText (query : String) (s : Store) : List Location :=
  s.locations.filter (fun l => l.search_query == query)

/-- The `searchCoords` route handler.  `dbOk = false` models the
`Location.lookup` query rejecting; its `.catch(console.error)` then logs and
resolves, invoking neither path.  On a non-empty lookup the inline `cacheHit`
sends `results.rows[0]`; on an empty lookup `cacheMiss` runs
`Location.fetchLocation` and sends the resolved Location, its own
`.catch(console.error)` swallowing a rejection. -/
def searchCoords (query : String) (net : Except Unit (List GeoResult))
    (dbOk : Bool) (s : Store) : LocOutcome :=
  if dbOk then
    match findLocationBySearchText query s with
    | l :: _ =>
        { store := s, response := some l, gatewayCalls := 0, surfaced := none }
    | [] =>
        match Location.fetchLocation query net s with
        | (s2, .ok loc) =>
            { store := s2, response := some loc, gatewayCalls := 1,
              surfaced := none }
        | (s2, .error _) =>
            { store := s2, response := none, gatewayCalls := 1, surfaced := none }
  else
    { store := s, response := none, gatewayCalls := 0, surfaced := none }

/-- Well-formed store: every row of a kind's table holds a record of that
kind (as every insert in the source does). -/
def wfStore (s : Store) : Prop :=
  ∀ k : Kind, ∀ r ∈ tableOfStore k s, kindOf r.record = k

/-- The URL each kind's fetch hands to `superagent.get`. -/
def urlOf : Kind → String → Location → String
  | .weather => weatherUrl
  | .events => eventsUrl
  | .movies => moviesUrl
  | .yelp => fun _ l => yelpUrl l

/-- The normalized records a kind's fetch builds from a parsed payload: one
constructor application per payload item. -/
def mapRecs : (k : Kind) → Nat → PayloadType k → List Rec
  | .weather, now, p => p.map (mkWeather now)
  | .events, now, p => p.map (mkEvent now)
  | .movies, now, p => p.map (mkMovie now)
  | .yelp, now, p => p.map (mkYelp now)

/-- The rows a run of serial inserts starting at id `i` produces from a list
of records keyed to `locId`. -/
def rowsFrom (i locId : Nat) : List Rec → List Row
  | [] => []
  | r :: rs => ⟨i, locId, r⟩ :: rowsFrom (i + 1) locId rs

/-- What a route sends after its fetch's promise chain rejected upstream:
weather and events propagate to the route's `.catch(console.error)` (no
response); movies and yelp resolve with `undefined`, which the route sends. -/
def failureResponse : Kind → Option Response
  | .weather => none
  | .events => none
  | .movies => some .jsUndefined
  | .yelp => some .jsUndefined

/-- Demo location, store-resident with id 1. -/
def locDemo : Location := ⟨1, "seattle", "Seattle, WA, USA", 47, -122⟩

/-- A second demo location with different coordinates, address and text. -/
def locOther : Location := ⟨2, "portland", "Portland, OR, USA", 45, -123⟩

/-- A persisted weather row for `locDemo`, created at time 0. -/
def rowDemo : Row := ⟨1, 1, .weather "Clear" "Date(0)" 0⟩

/-- A store with no resource rows. -/
def emptyStore : Store := ⟨[locDemo], [], [], [], [], 2⟩

/-- A store holding one weather batch for `locDemo` created at time 0: fresh
when queried at 1000 ms, stale when queried at 16000 ms. -/
def weatherStore : Store := ⟨[locDemo], [rowDemo], [], [], [], 2⟩

/-- What a fetch's promise resolves or rejects with when its HTTP request
rejects: weather and events propagate the rejection, movies and yelp catch it
and resolve with `undefined`. -/
def fetchFailValue : Kind → Except Unit (Option (List Rec))
  | .weather => .error ()
  | .events => .error ()
  | .movies => .ok none
  | .yelp => .ok none

/-- A gateway stub that returns one clear day for any URL. -/
def httpOneDay : String → Except Unit (List Day) := fun _ => .ok [⟨"Clear", 1⟩]

/-- A gateway stub that returns an empty day list for any URL. -/
def httpNoDays : String → Except Unit (List Day) := fun _ => .ok []

/-- A movies gateway stub that returns an empty list for any URL. -/
def httpMoviesA : String → Except Unit (List RawMovie) := fun _ => .ok []

/-- A movies gateway stub that answers only the now-playing URL the code
builds for `locDemo` and rejects every other URL. -/
def httpMoviesB : String → Except Unit (List RawMovie) :=
  fun u => if u = moviesUrl "KEY" locDemo then .ok [] else .error ()

/-- A record whose constructor matches its kind has that kind's canonical
field names. -/
theorem fieldNames_of_kind (rcd : Rec) (k : Kind) (h : kindOf rcd = k) :
    Rec.fieldNames rcd = canonicalFields k := by
  cases rcd <;> subst h <;> rfl

/-- Inserting into kind `k`'s table appends one row there with the next
serial id. -/
theorem tableOfStore_insertRowK_self (k : Kind) (rcd : Rec) (locId : Nat) (s : Store) :
    tableOfStore k (insertRowK k rcd locId s) =
      tableOfStore k s ++ [⟨s.nextId, locId, rcd⟩] := by
  cases k <;> rfl

/-- Inserting into kind `k`'s table leaves every other kind's table alone. -/
theorem tableOfStore_insertRowK_other (k k2 : Kind) (h : k2 ≠ k) (rcd : Rec)
    (locId : Nat) (s : Store) :
    tableOfStore k2 (insertRowK k rcd locId s) = tableOfStore k2 s := by
  cases k <;> cases k2 <;> first | rfl | exact absurd rfl h

/-- Inserting a resource row leaves the locations table alone. -/
theorem locations_insertRowK (k : Kind) (rcd : Rec) (locId : Nat) (s : Store) :
    (insertRowK k rcd locId s).locations = s.locations := by
  cases k <;> rfl

/-- Inserting a resource row advances the serial sequence by one. -/
theorem nextId_insertRowK (k : Kind) (rcd : Rec) (locId : Nat) (s : Store) :
    (insertRowK k rcd locId s).nextId = s.nextId + 1 := by
  cases k <;> rfl

/-- A run of inserts appends exactly the corresponding rows to `k`'s table. -/
theorem tableOfStore_foldl_insert (k : Kind) (locId : Nat) (recs : List Rec) (s : Store) :
    tableOfStore k (recs.foldl (fun st r => insertRowK k r locId st) s) =
      tableOfStore k s ++ rowsFrom s.nextId locId recs := by
  induction recs generalizing s with
  | nil => simp [rowsFrom]
  | cons r rs ih =>
      simp only [List.foldl_cons, rowsFrom]
      rw [ih, tableOfStore_insertRowK_self, nextId_insertRowK]
      simp

/-- A run of inserts into `k`'s table leaves other kinds' tables alone. -/
theorem tableOfStore_foldl_insert_other (k k2 : Kind) (h : k2 ≠ k) (locId : Nat)
    (recs : List Rec) (s : Store) :
    tableOfStore k2 (recs.foldl (fun st r => insertRowK k r locId st) s) =
      tableOfStore k2 s := by
  induction recs generalizing s with
  | nil => rfl
  | cons r rs ih =>
      simp only [List.foldl_cons]
      rw [ih, tableOfStore_insertRowK_other k k2 h]

/-- A run of resource inserts leaves the locations table alone. -/
theorem locations_foldl_insert (k : Kind) (locId : Nat) (recs : List Rec) (s : Store) :
    (recs.foldl (fun st r => insertRowK k r locId st) s).locations = s.locations := by
  induction recs generalizing s with
  | nil => rfl
  | cons r rs ih =>
      simp only [List.foldl_cons]
      rw [ih, locations_insertRowK]

/-- A run of inserts advances the serial sequence by the number of records. -/
theorem nextId_foldl_insert (k : Kind) (locId : Nat) (recs : List Rec) (s : Store) :
    (recs.foldl (fun st r => insertRowK k r locId st) s).nextId =
      s.nextId + recs.length := by
  induction recs generalizing s with
  | nil => rfl
  | cons r rs ih =>
      simp only [List.foldl_cons, List.length_cons]
      rw [ih, nextId_insertRowK]
      omega

/-- The rows a run of serial inserts produces carry exactly the inserted
records, in order, with the same field values. -/
theorem rowsFrom_map_record (i locId : Nat) (recs : List Rec) :
    (rowsFrom i locId recs).map Row.record = recs := by
  induction recs generalizing i with
  | nil => rfl
  | cons r rs ih => simp [rowsFrom, ih]

/-- Every row a run of serial inserts produces is keyed to the inserted
location id. -/
theorem rowsFrom_location_id (i locId : Nat) (recs : List Rec) :
    ∀ row ∈ rowsFrom i locId recs, row.location_id = locId := by
  induction recs generalizing i with
  | nil => intro row h; cases h
  | cons r rs ih =>
      intro row h
      simp only [rowsFrom, List.mem_cons] at h
      rcases h with rfl | h
      · rfl
      · exact ih (i + 1) row h


/-- A successful HTTP response makes the kind's fetch insert the mapped
records, one serial insert per record, and resolve with exactly those
records. -/
theorem fetchK_ok (k : Kind) (now : Nat) (loc : Location) (apiKey : String)
    (http : String → Except Unit (PayloadType k)) (s : Store) (p : PayloadType k)
    (hok : http (urlOf k apiKey loc) = .ok p) :
    fetchK k now loc apiKey http s =
      ((mapRecs k now p).foldl (fun st r => insertRowK k r loc.id st) s,
        .ok (some (mapRecs k now p))) := by
  cases k <;>
    (simp only [urlOf] at hok
     simp [fetchK, Weather.fetch, Events.fetch, Movies.fetch, Yelp.fetch, hok, mapRecs])

/-- A rejected HTTP request makes the kind's fetch leave the store alone and
produce its kind's failure value. -/
theorem fetchK_err (k : Kind) (now : Nat) (loc : Location) (apiKey : String)
    (http : String → Except Unit (PayloadType k)) (s : Store)
    (hfail : http (urlOf k apiKey loc) = .error ()) :
    fetchK k now loc apiKey http s = (s, fetchFailValue k) := by
  cases k <;>
    (simp only [urlOf] at hfail
     simp [fetchK, Weather.fetch, Events.fetch, Movies.fetch, Yelp.fetch, hfail,
       fetchFailValue])

/-- A failing lookup query is caught by `lookup`'s `.catch(errorMessage)`:
the chain resolves, neither path runs, nothing is sent or surfaced. -/
theorem getResource_dbFail (k : Kind) (now : Nat) (loc : Location) (apiKey : String)
    (http : String → Except Unit (PayloadType k)) (s : Store) :
    getResource k now loc apiKey http false s =
      { store := s, response := none, gatewayCalls := 0, surfaced := none } := by
  cases k <;> rfl

/-- A non-empty, fresh lookup result is sent verbatim with no other effect. -/
theorem getResource_fresh_hit (k : Kind) (now : Nat) (loc : Location) (apiKey : String)
    (http : String → Except Unit (PayloadType k)) (s : Store) (row : Row)
    (rest : List Row) (hfind : findByLocation k loc.id s = row :: rest)
    (hfresh : ¬ now - row.record.created_at > timeouts k) :
    getResource k now loc apiKey http true s =
      { store := s, response := some (.rows (row :: rest)), gatewayCalls := 0,
        surfaced := none } := by
  cases k <;>
    simp [getResource, getWeather, getEvents, getMovies, getYelp, hfind, hfresh]

/-- A non-empty, stale lookup result is deleted via `deleteByLocationId`; the
un-called `this.cacheMiss` then leaves the handler with no fetch, no send, and
nothing surfaced. -/
theorem getResource_stale (k : Kind) (now : Nat) (loc : Location) (apiKey : String)
    (http : String → Except Unit (PayloadType k)) (s : Store) (row : Row)
    (rest : List Row) (hfind : findByLocation k loc.id s = row :: rest)
    (hstale : now - row.record.created_at > timeouts k) :
    getResource k now loc apiKey http true s =
      { store := deleteByLocationId (tableName k) loc.id s, response := none,
        gatewayCalls := 0, surfaced := none } := by
  cases k <;>
    simp [getResource, getWeather, getEvents, getMovies, getYelp, hfind, hstale,
      tableName]

/-- An empty lookup result with a successful gateway call persists the mapped
records (inside the fetch) and sends them. -/
theorem getResource_miss_ok (k : Kind) (now : Nat) (loc : Location) (apiKey : String)
    (http : String → Except Unit (PayloadType k)) (s : Store) (p : PayloadType k)
    (hempty : findByLocation k loc.id s = [])
    (hok : http (urlOf k apiKey loc) = .ok p) :
    getResource k now loc apiKey http true s =
      { store := (mapRecs k now p).foldl (fun st r => insertRowK k r loc.id st) s,
        response := some (.recs (mapRecs k now p)), gatewayCalls := 1,
        surfaced := none } := by
  have hf := fetchK_ok k now loc apiKey http s p hok
  cases k <;>
    (simp only [fetchK] at hf
     simp [getResource, getWeather, getEvents, getMovies, getYelp, hempty, hf])

/-- An empty lookup result with a rejected gateway call leaves the store
alone; weather and events swallow the rejection at the route's catch (no
response), movies and yelp send `undefined`; nothing is surfaced. -/
theorem getResource_miss_fail (k : Kind) (now : Nat) (loc : Location) (apiKey : String)
    (http : String → Except Unit (PayloadType k)) (s : Store)
    (hempty : findByLocation k loc.id s = [])
    (hfail : http (urlOf k apiKey loc) = .error ()) :
    getResource k now loc apiKey http true s =
      { store := s, response := failureResponse k, gatewayCalls := 1,
        surfaced := none } := by
  have hf := fetchK_err k now loc apiKey http s hfail
  cases k <;>
    (simp only [fetchK, fetchFailValue] at hf
     simp [getResource, getWeather, getEvents, getMovies, getYelp, hempty, hf,
       failureResponse])



/-- C1: at a failing input — one persisted weather batch for `locDemo` created
at 0 ms, queried at 16000 ms (age 16 s > the 15 s window), with a gateway that
would return data — the stale path deletes the persisted batch but then stops:
the un-invoked `this.cacheMiss` means no gateway call is made, nothing is
persisted, and nothing is returned, contrary to the claimed
delete-then-miss-path behavior. -/
theorem c1_stale_path_deletes_without_refetch :
    getWeather 16000 locDemo "KEY" httpOneDay true weatherStore =
      { store := ⟨[locDemo], [], [], [], [], 2⟩, response := none,
        gatewayCalls := 0, surfaced := none } := by decide

/-- C2: a persisted batch whose representative age is at most the kind's
timeout is returned verbatim on lookup, with no gateway call, no store
mutation, and nothing surfaced. -/
theorem c2_fresh_hit_returns_batch_unchanged (k : Kind) (now : Nat) (loc : Location)
    (apiKey : String) (http : String → Except Unit (PayloadType k)) (s : Store)
    (row : Row) (rest : List Row)
    (hfind : findByLocation k loc.id s = row :: rest)
    (hfresh : now - row.record.created_at ≤ timeouts k) :
    getResource k now loc apiKey http true s =
      { store := s, response := some (.rows (row :: rest)), gatewayCalls := 0,
        surfaced := none } :=
  getResource_fresh_hit k now loc apiKey http s row rest hfind (by omega)

/-- Witness for C2: the fresh weather batch at age 1 s is served unchanged. -/
theorem c2_fresh_hit_witness :
    getResource .weather 1000 locDemo "KEY" httpNoDays true weatherStore =
      { store := weatherStore, response := some (.rows [rowDemo]),
        gatewayCalls := 0, surfaced := none } :=
  c2_fresh_hit_returns_batch_unchanged .weather 1000 locDemo "KEY" httpNoDays
    weatherStore rowDemo [] (by decide) (by decide)

/-- C3 counterexample: with an empty movies cache and a rejecting gateway,
`getMovies` sends `undefined` as a success response and surfaces no error to
its caller — the claim that the failure is surfaced and never replaced by a
success is false at this input. -/
theorem c3_counterexample :
    getMovies 0 locDemo "KEY" (fun _ => .error ()) true emptyStore =
      { store := emptyStore, response := some .jsUndefined, gatewayCalls := 1,
        surfaced := none } := by decide

/-- C3 amended: on a miss-path gateway failure no kind surfaces an error and
no persistence changes occur; weather and events swallow the rejection at the
route's catch and send nothing, while movies and yelp catch it inside the
fetch and send `undefined` as a success. -/
theorem c3_gateway_failure_swallowed (k : Kind) (now : Nat) (loc : Location)
    (apiKey : String) (http : String → Except Unit (PayloadType k)) (s : Store)
    (hempty : findByLocation k loc.id s = [])
    (hfail : http (urlOf k apiKey loc) = .error ()) :
    getResource k now loc apiKey http true s =
      { store := s, response := failureResponse k, gatewayCalls := 1,
        surfaced := none } :=
  getResource_miss_fail k now loc apiKey http s hempty hfail

/-- Witness for C3 amended: a rejected weather fetch on an empty cache leaves
the store alone, sends nothing, and surfaces nothing. -/
theorem c3_gateway_failure_witness :
    getResource .weather 0 locDemo "KEY" (fun _ => .error ()) true emptyStore =
      { store := emptyStore, response := failureResponse .weather,
        gatewayCalls := 1, surfaced := none } :=
  c3_gateway_failure_swallowed .weather 0 locDemo "KEY" (fun _ => .error ())
    emptyStore (by decide) rfl

/-- C4 counterexample: `Weather.fetch` on a one-day payload mutates the store
(it saves the summary itself), so the gateway fetch is not pure with respect
to the store. -/
theorem c4_counterexample :
    (Weather.fetch 5 locDemo "KEY" httpOneDay emptyStore).1 ≠ emptyStore := by decide

/-- C4 amended: on a successful miss-path fetch, all persistence happens
inside the gateway fetch itself — the engine's store state after the route is
exactly the fetch's output store, and the fetch has already advanced the
serial sequence once per normalized record. -/
theorem c4_persistence_inside_fetch (k : Kind) (now : Nat) (loc : Location)
    (apiKey : String) (http : String → Except Unit (PayloadType k)) (s : Store)
    (p : PayloadType k) (hempty : findByLocation k loc.id s = [])
    (hok : http (urlOf k apiKey loc) = .ok p) :
    (getResource k now loc apiKey http true s).store =
      (fetchK k now loc apiKey http s).1 ∧
    (fetchK k now loc apiKey http s).1.nextId = s.nextId + (mapRecs k now p).length := by
  rw [getResource_miss_ok k now loc apiKey http s p hempty hok,
    fetchK_ok k now loc apiKey http s p hok]
  exact ⟨rfl, nextId_foldl_insert k loc.id (mapRecs k now p) s⟩

/-- Witness for C4 amended: the weather route's store after a one-day miss
fetch is the fetch's own store, which has consumed one serial id. -/
theorem c4_persistence_witness :
    (getResource .weather 5 locDemo "KEY" httpOneDay true emptyStore).store =
      (fetchK .weather 5 locDemo "KEY" httpOneDay emptyStore).1 :=
  (c4_persistence_inside_fetch .weather 5 locDemo "KEY" httpOneDay emptyStore
    [⟨"Clear", 1⟩] (by decide) rfl).1

/-- C5: a successful fetch of kind `k` resolves with exactly the records it
mapped from the payload; the kind's table afterwards is the old table plus
one new row per returned record, the new rows carry exactly the returned
records' field values, and every new row is keyed to the fetched location. -/
theorem c5_returned_matches_persisted (k : Kind) (now : Nat) (loc : Location)
    (apiKey : String) (http : String → Except Unit (PayloadType k)) (s : Store)
    (p : PayloadType k) (hok : http (urlOf k apiKey loc) = .ok p) :
    (fetchK k now loc apiKey http s).2 = .ok (some (mapRecs k now p)) ∧
    tableOfStore k (fetchK k now loc apiKey http s).1 =
      tableOfStore k s ++ rowsFrom s.nextId loc.id (mapRecs k now p) ∧
    (rowsFrom s.nextId loc.id (mapRecs k now p)).map Row.record = mapRecs k now p ∧
    ∀ r ∈ rowsFrom s.nextId loc.id (mapRecs k now p), r.location_id = loc.id := by
  rw [fetchK_ok k now loc apiKey http s p hok]
  exact ⟨rfl, tableOfStore_foldl_insert k loc.id (mapRecs k now p) s,
    rowsFrom_map_record s.nextId loc.id (mapRecs k now p),
    rowsFrom_location_id s.nextId loc.id (mapRecs k now p)⟩

/-- Witness for C5: a concrete one-day weather fetch resolves with the mapped
summaries and appends exactly the matching row. -/
theorem c5_returned_matches_persisted_witness :
    (fetchK .weather 5 locDemo "KEY" httpOneDay emptyStore).2 =
      .ok (some (mapRecs .weather 5 [⟨"Clear", 1⟩])) ∧
    tableOfStore .weather (fetchK .weather 5 locDemo "KEY" httpOneDay emptyStore).1 =
      tableOfStore .weather emptyStore ++
        rowsFrom emptyStore.nextId locDemo.id (mapRecs .weather 5 [⟨"Clear", 1⟩]) :=
  ⟨(c5_returned_matches_persisted .weather 5 locDemo "KEY" httpOneDay emptyStore
      [⟨"Clear", 1⟩] rfl).1,
   (c5_returned_matches_persisted .weather 5 locDemo "KEY" httpOneDay emptyStore
      [⟨"Clear", 1⟩] rfl).2.1⟩

/-- Every record a kind's fetch maps from its payload belongs to that kind. -/
theorem mapRecs_kind (k : Kind) (now : Nat) (p : PayloadType k) :
    ∀ rcd ∈ mapRecs k now p, kindOf rcd = k := by
  cases k <;>
    (intro rcd hm
     simp only [mapRecs, List.mem_map] at hm
     rcases hm with ⟨x, _, rfl⟩
     rfl)

/-- C6 counterexample: at a concrete input the hit path sends the persisted
row, the miss path sends the freshly built record, and the two carry
different field sets — the persisted row additionally has `id` and
`location_id` — so the two paths do not return records with the same
fields. -/
theorem c6_counterexample :
    (getWeather 1000 locDemo "KEY" httpNoDays true weatherStore).response =
      some (.rows [rowDemo]) ∧
    (getWeather 1000 locDemo "KEY" httpOneDay true emptyStore).response =
      some (.recs [mkWeather 1000 ⟨"Clear", 1⟩]) ∧
    Row.fieldNames rowDemo ≠ Rec.fieldNames (mkWeather 1000 ⟨"Clear", 1⟩) := by decide

/-- C6 amended: over a well-formed store, whichever path is taken the
response carries the kind's canonical data fields on every element — but hit
responses are rows that additionally carry the store's `id` and `location_id`
columns, while miss responses are bare records with only the canonical
fields. -/
theorem c6_response_shapes (k : Kind) (now : Nat) (loc : Location) (apiKey : String)
    (http : String → Except Unit (PayloadType k)) (dbOk : Bool) (s : Store)
    (hwf : wfStore s) :
    (∀ rs, (getResource k now loc apiKey http dbOk s).response = some (.rows rs) →
      ∀ r ∈ rs, Row.fieldNames r = "id" :: canonicalFields k ++ ["location_id"]) ∧
    (∀ recs, (getResource k now loc apiKey http dbOk s).response = some (.recs recs) →
      ∀ rcd ∈ recs, Rec.fieldNames rcd = canonicalFields k) := by
  constructor
  · intro rs h r hr
    cases dbOk
    · rw [getResource_dbFail] at h
      simp at h
    · rcases hfd : findByLocation k loc.id s with _ | ⟨row, rest⟩
      · cases hnet : http (urlOf k apiKey loc) with
        | error u =>
            cases u
            rw [getResource_miss_fail k now loc apiKey http s hfd hnet] at h
            cases k <;> simp [failureResponse] at h
        | ok p =>
            rw [getResource_miss_ok k now loc apiKey http s p hfd hnet] at h
            simp at h
      · by_cases hst : now - row.record.created_at > timeouts k
        · rw [getResource_stale k now loc apiKey http s row rest hfd hst] at h
          simp at h
        · rw [getResource_fresh_hit k now loc apiKey http s row rest hfd hst] at h
          simp only [Option.some.injEq, Response.rows.injEq] at h
          subst h
          rw [← hfd] at hr
          have hmem : r ∈ tableOfStore k s :=
            List.mem_of_mem_filter hr
          have hk : kindOf r.record = k := hwf k r hmem
          simp [Row.fieldNames, fieldNames_of_kind r.record k hk]
  · intro recs h rcd hrc
    cases dbOk
    · rw [getResource_dbFail] at h
      simp at h
    · rcases hfd : findByLocation k loc.id s with _ | ⟨row, rest⟩
      · cases hnet : http (urlOf k apiKey loc) with
        | error u =>
            cases u
            rw [getResource_miss_fail k now loc apiKey http s hfd hnet] at h
            cases k <;> simp [failureResponse] at h
        | ok p =>
            rw [getResource_miss_ok k now loc apiKey http s p hfd hnet] at h
            simp only [Option.some.injEq, Response.recs.injEq] at h
            subst h
            exact fieldNames_of_kind rcd k (mapRecs_kind k now p rcd hrc)
      · by_cases hst : now - row.record.created_at > timeouts k
        · rw [getResource_stale k now loc apiKey http s row rest hfd hst] at h
          simp at h
        · rw [getResource_fresh_hit k now loc apiKey http s row rest hfd hst] at h
          simp at h

/-- Witness for C6 amended: the served fresh weather row carries the id,
canonical weather fields, and location key. -/
theorem c6_response_shapes_witness :
    Row.fieldNames rowDemo = "id" :: canonicalFields .weather ++ ["location_id"] :=
  (c6_response_shapes .weather 1000 locDemo "KEY" httpNoDays true weatherStore
      (by unfold wfStore; decide)).1 [rowDemo] (by decide) rowDemo (by decide)

/-- C7 counterexample: the movies gateway builds the same URL for two
different locations — its external query does not depend on the resolved
location. -/
theorem c7_counterexample :
    moviesUrl "KEY" locDemo = moviesUrl "KEY" locOther ∧ locDemo ≠ locOther :=
  ⟨rfl, by decide⟩

/-- C7 amended: every kind's fetch consults its gateway only at the URL the
kind builds from the location; the weather, events, and yelp URLs genuinely
vary with the location (coordinates, formatted address, search text
respectively), but the movies URL is one fixed now-playing query for all
locations. -/
theorem c7_query_translation :
    (∀ (k : Kind) (now : Nat) (loc : Location) (apiKey : String)
        (h1 h2 : String → Except Unit (PayloadType k)) (s : Store),
        h1 (urlOf k apiKey loc) = h2 (urlOf k apiKey loc) →
        fetchK k now loc apiKey h1 s = fetchK k now loc apiKey h2 s) ∧
    (∃ l1 l2 : Location, weatherUrl "KEY" l1 ≠ weatherUrl "KEY" l2) ∧
    (∃ l1 l2 : Location, eventsUrl "KEY" l1 ≠ eventsUrl "KEY" l2) ∧
    (∃ l1 l2 : Location, yelpUrl l1 ≠ yelpUrl l2) ∧
    (∀ (apiKey : String) (l1 l2 : Location), moviesUrl apiKey l1 = moviesUrl apiKey l2) := by
  refine ⟨?_, ⟨locDemo, locOther, by decide⟩, ⟨locDemo, locOther, by decide⟩,
    ⟨locDemo, locOther, by decide⟩, fun _ _ _ => rfl⟩
  intro k now loc apiKey h1 h2 s h
  cases k <;>
    (simp only [urlOf] at h
     simp only [fetchK, Weather.fetch, Events.fetch, Movies.fetch, Yelp.fetch, h])

/-- Witness for C7 amended: two movies gateways that agree on the one URL the
code builds produce identical fetch outcomes, even though one rejects every
other URL. -/
theorem c7_query_translation_witness :
    fetchK .movies 0 locDemo "KEY" httpMoviesA emptyStore =
      fetchK .movies 0 locDemo "KEY" httpMoviesB emptyStore :=
  c7_query_translation.1 .movies 0 locDemo "KEY" httpMoviesA httpMoviesB
    emptyStore rfl

/-- C8: when the geocoding gateway returns zero results,
`Location.fetchLocation` fails (the thrown `No data`, the design's
`NotFoundError`) and leaves the store untouched — no Location row is
persisted. -/
theorem c8_zero_geocode_results (query : String) (s : Store) :
    Location.fetchLocation query (.ok []) s = (s, .error .notFound) := rfl

/-- C9 counterexample: when the lookup query fails, the weather route's
outcome surfaces nothing to its caller (and sends no response) — the
`.catch(errorMessage)` inside `lookup` logs and resolves, so no `StoreError`
reaches the caller, contrary to the claim. -/
theorem c9_counterexample :
    getWeather 0 locDemo "KEY" httpNoDays false weatherStore =
      { store := weatherStore, response := none, gatewayCalls := 0,
        surfaced := none } := by decide

/-- C9 amended: on a persisted-store failure during a lookup — whether one of
the four resource lookups through the shared `lookup` helper or the location
lookup through `Location.lookup` — the engine swallows the error: the trailing
catch logs and resolves, so neither path runs, no response is sent, nothing is
surfaced to the caller, no gateway call is made, and the store is unchanged. -/
theorem c9_store_failure_swallowed :
    (∀ (k : Kind) (now : Nat) (loc : Location) (apiKey : String)
        (http : String → Except Unit (PayloadType k)) (s : Store),
        getResource k now loc apiKey http false s =
          { store := s, response := none, gatewayCalls := 0, surfaced := none }) ∧
    (∀ (query : String) (net : Except Unit (List GeoResult)) (s : Store),
        searchCoords query net false s =
          { store := s, response := none, gatewayCalls := 0, surfaced := none }) :=
  ⟨fun k now loc apiKey http s => getResource_dbFail k now loc apiKey http s,
   fun _ _ _ => rfl⟩

/-- C10: on the stale path the engine's whole store effect is
`deleteByLocationId` on the kind's own table: that table loses exactly the
rows keyed to the location, while the locations table, every other kind's
table, and the serial sequence are unchanged. -/
theorem c10_eviction_only_own_table (k : Kind) (now : Nat) (loc : Location)
    (apiKey : String) (http : String → Except Unit (PayloadType k)) (s : Store)
    (row : Row) (rest : List Row)
    (hfind : findByLocation k loc.id s = row :: rest)
    (hstale : now - row.record.created_at > timeouts k) :
    (getResource k now loc apiKey http true s).store =
      deleteByLocationId (tableName k) loc.id s ∧
    tableOfStore k (deleteByLocationId (tableName k) loc.id s) =
      (tableOfStore k s).filter (fun r => r.location_id != loc.id) ∧
    (deleteByLocationId (tableName k) loc.id s).locations = s.locations ∧
    (∀ k2 : Kind, k2 ≠ k →
      tableOfStore k2 (deleteByLocationId (tableName k) loc.id s) = tableOfStore k2 s) ∧
    (deleteByLocationId (tableName k) loc.id s).nextId = s.nextId := by
  refine ⟨?_, ?_, ?_, ?_, ?_⟩
  · rw [getResource_stale k now loc apiKey http s row rest hfind hstale]
  · cases k <;> rfl
  · cases k <;> rfl
  · intro k2 hne
    cases k <;> cases k2 <;> first | exact absurd rfl hne | rfl
  · cases k <;> rfl

/-- Witness for C10: evicting the stale weather batch leaves the events table
alone, and the route's store is exactly the deletion's result. -/
theorem c10_eviction_witness :
    (getResource .weather 16000 locDemo "KEY" httpNoDays true weatherStore).store =
      deleteByLocationId (tableName .weather) locDemo.id weatherStore ∧
    tableOfStore .events
        (deleteByLocationId (tableName .weather) locDemo.id weatherStore) =
      tableOfStore .events weatherStore :=
  ⟨(c10_eviction_only_own_table .weather 16000 locDemo "KEY" httpNoDays
      weatherStore rowDemo [] (by decide) (by decide)).1,
   (c10_eviction_only_own_table .weather 16000 locDemo "KEY" httpNoDays
      weatherStore rowDemo [] (by decide) (by decide)).2.2.2.1 .events (by decide)⟩
